import Mathlib

/-!
Verification development for the `git-repo-analyzer` repository
(src/git_repo_analyzer). Each Python function relevant to the checked
properties is shallow-embedded as an executable Lean definition; side
effects (console output, file writes, exceptions) are made explicit as
data. Machine-level concerns do not arise: the program manipulates
Python lists, dicts and strings, modelled as Lean lists, association
lists and strings.
-/

/-- Model of a Python `datetime` value as far as this program inspects it:
`analyzer.py` turns `committed_date` into a `datetime` and the chart
builder keys it by `strftime("%Y-%m")`, which reads only year and month;
the remaining fields are carried for fidelity. -/
structure PyDateTime where
  year : Nat
  month : Nat
  day : Nat
  hour : Nat
  minute : Nat
  second : Nat
deriving DecidableEq, Repr

/-- Zero-pad to two digits, as `strftime("%m")` does. -/
def pad2 (n : Nat) : String :=
  if n < 10 then "0" ++ toString n else toString n

/-- Zero-pad to four digits, as `strftime("%Y")` does. -/
def pad4 (n : Nat) : String :=
  if n < 10 then "000" ++ toString n
  else if n < 100 then "00" ++ toString n
  else if n < 1000 then "0" ++ toString n
  else toString n

/-- `d.strftime("%Y-%m")` — the monthly bucket key used in
`report_builder.build_commit_frequency_chart` (line 50). -/
def monthKey (d : PyDateTime) : String :=
  pad4 d.year ++ "-" ++ pad2 d.month

/-- The monthly aggregation of `build_commit_frequency_chart`
(report_builder.py lines 47-54): for each `YYYY-MM` key, the number of
parsed dates falling in that month. The Python code builds the mapping
by iterating and incrementing `monthly[key]`; the resulting dict sends
each key to the count of dates with that month key, which is what this
function computes. -/
def monthlyBuckets (dates : List PyDateTime) : String → Nat :=
  fun k => (dates.map monthKey).count k

/-- Python `str.startswith`, character-wise on the underlying character
data. -/
def strStartsWith (s p : String) : Bool := p.data.isPrefixOf s.data

/-- Python `str.endswith`, character-wise on the underlying character
data. -/
def strEndsWith (s p : String) : Bool := p.data.isSuffixOf s.data

/-- `analyzer.is_git_url` (analyzer.py line 36-37):
`bool(s and (s.startswith("http://") or s.startswith("https://") or s.endswith(".git")))`.
An empty string is falsy in Python, so it yields `False` regardless of
the suffix tests. -/
def isGitUrl (s : String) : Bool :=
  (!(s == "")) && (strStartsWith s "http://" || strStartsWith s "https://" || strEndsWith s ".git")

/-- The two source modes distinguished by `analyze_repository`. -/
inductive RepoMode
  | url
  | local
deriving DecidableEq, Repr

/-- `repo_source` argument of `analyze_repository`: either a
`(mode, value)` tuple (as passed by the CLI) or a bare string. -/
inductive RepoSource
  | tagged (mode : RepoMode) (value : String)
  | plain (s : String)
deriving DecidableEq, Repr

/-- Mode resolution at analyzer.py lines 98-102: a tuple is split, a
bare string is classified with `is_git_url`. -/
def sourceModeValue : RepoSource → RepoMode × String
  | .tagged m v => (m, v)
  | .plain s => (if isGitUrl s then RepoMode.url else RepoMode.local, s)

/-- Python-style result of calling a function that may raise. -/
inductive PyCallResult (α : Type)
  | returned (a : α)
  | raisedNameError (name : String)
  | raisedInvalidGitRepo
deriving DecidableEq, Repr

/-- Whether a call returned normally. -/
def PyCallResult.isReturned {α : Type} : PyCallResult α → Bool
  | .returned _ => true
  | _ => false

/-- The mapping `repo_scanner.scan_repo` is documented to produce. -/
structure ScanRepoResult where
  commitCount : Nat
  branches : List String
deriving DecidableEq, Repr

/-- `repo_scanner.scan_repo` (repo_scanner.py lines 3-12). Its body is
`repo = Repo(repo_path); commits = get_all_commits(repo); ...`, but the
names `get_all_commits` and `branch_statistics` are defined nowhere in
the repository and are not imported, so when `Repo(repo_path)` succeeds
the next statement raises `NameError("get_all_commits")`; when the path
is not a git repository, `Repo` itself raises first. In either case no
result value is ever produced, which is what this embedding records. -/
def scanRepo (repoValid : Bool) : PyCallResult ScanRepoResult :=
  if repoValid then .raisedNameError "get_all_commits" else .raisedInvalidGitRepo

/-- Score assignment of `report_builder.build_complexity_table_html`
(lines 109-122) for one table row: an explicit `complexity` entry wins;
otherwise `score = funcs * (lines / 100 if lines else 1)`, where Python
truthiness makes both a missing and a zero line count fall back to the
factor 1. Scores are rationals (Python floats here are exact decimal
fractions of the form k/100). -/
def complexityScore (complexity : Option ℚ) (lines : Option Nat) (funcs : Nat) : ℚ :=
  match complexity with
  | some c => c
  | none =>
      (funcs : ℚ) *
        (match lines with
         | some l => if l = 0 then 1 else (l : ℚ) / 100
         | none => 1)

/-- The score formula as the specification states it:
`functions * max(lines/100, 1)` (spec.md section 3, FileComplexity).
Kept separate so it can be compared with `complexityScore`, the formula
actually in the code. -/
def specComplexityScore (lines : Nat) (funcs : Nat) : ℚ :=
  (funcs : ℚ) * max ((lines : ℚ) / 100) 1

/-- One row of the complexity table: the heuristic metadata the builder
reads out of each record. -/
structure FileMeta where
  complexity : Option ℚ
  lines : Option Nat
  functions : Nat
deriving DecidableEq, Repr

/-- Row construction of `build_complexity_table_html` (lines 107-122):
each file is paired with its derived score before sorting. -/
def complexityRows (fc : List (String × FileMeta)) : List (String × ℚ) :=
  fc.map (fun p => (p.1, complexityScore p.2.complexity p.2.lines p.2.functions))

/-- C4: the monthly (YYYY-MM keyed) bucket counts of the
commit-frequency chart are a function of the multiset of timestamps
only: permuting the input list leaves every bucket count unchanged. -/
theorem monthly_buckets_perm_invariant (d1 d2 : List PyDateTime) (h : d1.Perm d2) :
    monthlyBuckets d1 = monthlyBuckets d2 :=
  funext fun k => (h.map monthKey).count_eq k

/-- A concrete list of commit timestamps. -/
def egDates1 : List PyDateTime :=
  [⟨2024, 1, 5, 0, 0, 0⟩, ⟨2024, 1, 9, 12, 0, 0⟩, ⟨2023, 12, 31, 23, 59, 59⟩]

/-- A shuffle of `egDates1`. -/
def egDates2 : List PyDateTime :=
  [⟨2023, 12, 31, 23, 59, 59⟩, ⟨2024, 1, 9, 12, 0, 0⟩, ⟨2024, 1, 5, 0, 0, 0⟩]

/-- Witness for the permutation-invariance theorem at a concrete pair of
shuffled timestamp lists. -/
theorem monthly_buckets_perm_invariant_witness :
    monthlyBuckets egDates1 = monthlyBuckets egDates2 :=
  monthly_buckets_perm_invariant egDates1 egDates2 (by decide)

/-- C8: the orchestrator classifies a bare source string as a remote URL
exactly when it is non-empty and starts with `http://` or `https://` or
ends with `.git`; otherwise it is treated as a local path. -/
theorem is_git_url_characterisation (s : String) :
    (sourceModeValue (.plain s)).1 = RepoMode.url ↔
      (s ≠ "" ∧ (strStartsWith s "http://" = true ∨ strStartsWith s "https://" = true ∨
        strEndsWith s ".git" = true)) := by
  simp only [sourceModeValue, isGitUrl]
  constructor
  · intro h
    by_cases hb : ((!(s == "")) && (strStartsWith s "http://" || strStartsWith s "https://" || strEndsWith s ".git")) = true
    · simp only [Bool.and_eq_true, Bool.not_eq_true', Bool.or_eq_true, beq_eq_false_iff_ne] at hb
      tauto
    · simp [hb] at h
  · intro ⟨hne, hor⟩
    have hb : ((!(s == "")) && (strStartsWith s "http://" || strStartsWith s "https://" || strEndsWith s ".git")) = true := by
      simp only [Bool.and_eq_true, Bool.not_eq_true', Bool.or_eq_true, beq_eq_false_iff_ne]
      exact ⟨hne, by tauto⟩
    simp [hb]

/-- Witness for the URL-classification characterisation at concrete
strings on both sides of the split: an `https` URL is classified as
remote, and a bare relative path is not. -/
theorem is_git_url_characterisation_witness :
    (sourceModeValue (.plain "https://github.com/x/y")).1 = RepoMode.url ∧
      (sourceModeValue (.plain "some/local/path")).1 = RepoMode.local :=
  ⟨(is_git_url_characterisation "https://github.com/x/y").mpr
      ⟨by decide, Or.inr (Or.inl (by decide))⟩,
    by decide⟩

/-- C9: `scan_repo` can never return a result: for a valid repository
path its body hits the undefined name `get_all_commits` and raises a
`NameError`; for an invalid path the repository constructor raises
first. In no case is the documented commit-count/branches mapping
produced. -/
theorem scan_repo_never_returns :
    (∀ v : Bool, (scanRepo v).isReturned = false) ∧
      scanRepo true = PyCallResult.raisedNameError "get_all_commits" :=
  ⟨fun v => by cases v <;> rfl, rfl⟩

/-- C1 counterexample: for the record with 50 lines, 2 functions and no
external complexity metric, the code computes `2 * (50/100) = 1`, while
the claimed formula `F * max(L/100, 1)` gives `2 * max(0.5, 1) = 2`;
the code score is strictly below the claimed score, refuting the claim
at this concrete record. -/
theorem complexity_score_counterexample :
    complexityScore none (some 50) 2 = 1 ∧ specComplexityScore 50 2 = 2 ∧
      complexityScore none (some 50) 2 < specComplexityScore 50 2 := by
  refine ⟨?_, ?_, ?_⟩
  · simp [complexityScore]
    norm_num
  · simp [specComplexityScore]
    norm_num
  · simp [complexityScore, specComplexityScore]
    norm_num

/-- C1 amended: for a record with no external complexity metric the
derived score is `F * (L/100)` whenever the line count L is present and
non-zero, and plain `F` when the line count is absent or zero — there is
no clamping of the `L/100` factor at 1. -/
theorem complexity_score_amended (L F : Nat) :
    (L ≠ 0 → complexityScore none (some L) F = (F : ℚ) * ((L : ℚ) / 100)) ∧
      complexityScore none none F = (F : ℚ) ∧
      complexityScore none (some 0) F = (F : ℚ) := by
  refine ⟨fun hL => ?_, ?_, ?_⟩
  · simp [complexityScore, hL]
  · simp [complexityScore]
  · simp [complexityScore]

/-- Witness for the amended score formula at the counterexample record. -/
theorem complexity_score_amended_witness :
    complexityScore none (some 50) 2 = (2 : ℚ) * ((50 : ℚ) / 100) :=
  (complexity_score_amended 50 2).1 (by decide)

/-- Python `str.count(pattern)`: the number of non-overlapping
occurrences of `pattern`, scanning left to right (for an empty pattern
Python returns `len(s) + 1`). Used by `file_scanner.scan_complexity`
for the line and function-keyword counts. -/
def pyCount (p s : List Char) : Nat :=
  if hp : p = [] then s.length + 1
  else
    match s with
    | [] => 0
    | c :: rest =>
      if p.isPrefixOf (c :: rest) then 1 + pyCount p ((c :: rest).drop p.length)
      else pyCount p rest
termination_by s.length
decreasing_by
  · simp only [List.length_drop, List.length_cons]
    have hl : 0 < p.length := List.length_pos.mpr hp
    omega
  · simp

/-- The number of positions at which `p` occurs in `s` (all occurrences,
overlapping ones included). This is the reading of "number of
occurrences" used to state the scanner property; it differs from
`pyCount` as a definition but agrees with it for patterns that cannot
overlap themselves. -/
def occ (p : List Char) : List Char → Nat
  | [] => 0
  | c :: rest => (if p.isPrefixOf (c :: rest) then 1 else 0) + occ p rest

/-- A pattern that cannot overlap itself: no proper non-empty tail of
`p` is also a prefix of `p`. -/
def noSelfOverlap (p : List Char) : Prop :=
  ∀ d, d < p.length → 0 < d → (p.drop d).isPrefixOf p = false

instance noSelfOverlapDecidable (p : List Char) : Decidable (noSelfOverlap p) := by
  unfold noSelfOverlap
  exact inferInstance

/-- Bridge between the executable prefix test and the prefix order. -/
theorem isPrefixOf_true_iff {l₁ l₂ : List Char} : l₁.isPrefixOf l₂ = true ↔ l₁ <+: l₂ :=
  List.isPrefixOf_iff_prefix

/-- If `p` cannot overlap itself and occurs at the head of `s`, it does
not also occur at any position strictly inside that head occurrence. -/
theorem no_overlap_skip {p s : List Char} (hov : noSelfOverlap p) (hps : p <+: s)
    {j : Nat} (hj0 : 0 < j) (hjl : j < p.length) : ¬ p <+: s.drop j := by
  intro hcon
  obtain ⟨t, ht⟩ := hps
  have hdrop : s.drop j = p.drop j ++ t := by
    rw [← ht]
    exact List.drop_append_of_le_length (le_of_lt hjl)
  rw [hdrop] at hcon
  have h1 : p.drop j <+: p.drop j ++ t := List.prefix_append _ _
  have h2 : p.drop j <+: p := by
    refine List.prefix_of_prefix_length_le h1 hcon ?_
    simp only [List.length_drop]
    omega
  have := hov j hjl hj0
  rw [isPrefixOf_true_iff.mpr h2] at this
  exact absurd this (by simp)

/-- After a head occurrence of a non-self-overlapping pattern, the
occurrence count is unchanged by skipping any distance up to the
pattern length. -/
theorem occ_drop_eq_of_prefix {p s : List Char} (hov : noSelfOverlap p) (hps : p <+: s) :
    ∀ j, 0 < j → j ≤ p.length →
      occ p (s.drop j) = occ p (s.drop p.length) := by
  suffices key : ∀ n j, p.length - j = n → 0 < j → j ≤ p.length →
      occ p (s.drop j) = occ p (s.drop p.length) by
    exact fun j h1 h2 => key (p.length - j) j rfl h1 h2
  intro n
  induction n with
  | zero =>
    intro j hd _ hjl
    have : j = p.length := by omega
    rw [this]
  | succ n ih =>
    intro j hd hj0 _
    have hjlt : j < p.length := by omega
    have hslen : p.length ≤ s.length := hps.length_le
    have hjs : j < s.length := lt_of_lt_of_le hjlt hslen
    have hcons : s.drop j = s[j] :: s.drop (j + 1) := List.drop_eq_getElem_cons hjs
    have hnot : ¬ p <+: s.drop j := no_overlap_skip hov hps hj0 hjlt
    have hpre : p.isPrefixOf (s.drop j) = false := by
      cases hb : p.isPrefixOf (s.drop j)
      · rfl
      · exact absurd (isPrefixOf_true_iff.mp hb) hnot
    have hstep : occ p (s.drop j) = occ p (s.drop (j + 1)) := by
      rw [hcons, occ, ← hcons, hpre]
      simp
    rw [hstep]
    exact ih (j + 1) (by omega) (by omega) (by omega)

/-- For a pattern that cannot overlap itself, the Python
left-to-right non-overlapping count finds every occurrence: `pyCount`
agrees with the all-positions occurrence count `occ`. -/
theorem pyCount_eq_occ {p : List Char} (hov : noSelfOverlap p) (hp : p ≠ []) :
    ∀ s, pyCount p s = occ p s := by
  have aux : ∀ n s, List.length s ≤ n → pyCount p s = occ p s := by
    intro n
    induction n with
    | zero =>
      intro s hs
      have : s = [] := List.eq_nil_of_length_eq_zero (by omega)
      rw [this]
      simp [pyCount, hp, occ]
    | succ n ih =>
      intro s hs
      match s with
      | [] => simp [pyCount, hp, occ]
      | c :: rest =>
        have hl : 0 < p.length := List.length_pos.mpr hp
        cases hpre : p.isPrefixOf (c :: rest) with
        | false =>
          have hrest : pyCount p rest = occ p rest := by
            refine ih rest ?_
            simp only [List.length_cons] at hs
            omega
          simp [pyCount, hp, hpre, occ, hrest]
        | true =>
          have hdroplen : ((c :: rest).drop p.length).length ≤ n := by
            simp only [List.length_drop, List.length_cons]
            simp only [List.length_cons] at hs
            omega
          have hdrop : pyCount p ((c :: rest).drop p.length) = occ p ((c :: rest).drop p.length) :=
            ih _ hdroplen
          have hps : p <+: (c :: rest) := isPrefixOf_true_iff.mp hpre
          have htail : occ p rest = occ p ((c :: rest).drop p.length) :=
            occ_drop_eq_of_prefix hov hps 1 (by omega) (by omega)
          simp [pyCount, hp, hpre, occ, hdrop, htail]
  intro s
  exact aux s.length s (le_refl _)

/-- Counting a single-character pattern with Python `str.count` is the
same as counting that character. -/
theorem pyCount_singleton (c : Char) (s : List Char) : pyCount [c] s = s.count c := by
  induction s with
  | nil => simp [pyCount]
  | cons x rest ih =>
    by_cases hx : x = c
    · subst hx
      have hpre : ([x] : List Char).isPrefixOf (x :: rest) = true := by
        simp [List.isPrefixOf]
      simp [pyCount, hpre, List.count_cons, ih, Nat.add_comm]
    · have hpre : ([c] : List Char).isPrefixOf (x :: rest) = false := by
        simp only [List.isPrefixOf, Bool.and_eq_false_iff, beq_eq_false_iff_ne]
        exact Or.inl fun h => hx h.symm
      simp [pyCount, hpre, List.count_cons, ih, hx]

/-- Result dictionary of `file_scanner.scan_complexity`: line count and
function-keyword count. -/
structure FileMetrics where
  lines : Nat
  functions : Nat
deriving DecidableEq, Repr

/-- The keyword `"def "` counted by `scan_complexity`. -/
def defKeyword : List Char := "def ".toList

/-- The keyword `"function "` counted by `scan_complexity`. -/
def functionKeyword : List Char := "function ".toList

/-- The keyword `"func "` counted by `scan_complexity`. -/
def funcKeyword : List Char := "func ".toList

/-- `file_scanner.scan_complexity` (file_scanner.py lines 3-19). The
file read is modelled by its result: `some content` when the read
succeeds (a Python string, as a character list), `none` when it raises.
On success the function returns
`{"lines": content.count("\n") + 1, "functions": content.count("def ") + content.count("function ") + content.count("func ")}`;
on any read failure the bare `except:` absorbs the error and an empty
dict is returned (modelled as `none`), so no error escapes. -/
def scanComplexity (readResult : Option (List Char)) : Option FileMetrics :=
  match readResult with
  | none => none
  | some content =>
      some { lines := pyCount ['\n'] content + 1,
             functions := pyCount defKeyword content + pyCount functionKeyword content +
               pyCount funcKeyword content }

/-- C7: for every readable file content, the scanner reports a line
count equal to the number of newline characters plus one, and a
function count equal to the total number of occurrences (all match
positions) of the three fixed keyword substrings; a failed read yields
the empty metric record and raises nothing. -/
theorem scan_complexity_spec :
    scanComplexity none = none ∧
      ∀ content : List Char,
        scanComplexity (some content) =
          some { lines := content.count '\n' + 1,
                 functions := occ defKeyword content + occ functionKeyword content +
                   occ funcKeyword content } := by
  refine ⟨rfl, fun content => ?_⟩
  have h1 : noSelfOverlap defKeyword := by decide
  have h2 : noSelfOverlap functionKeyword := by decide
  have h3 : noSelfOverlap funcKeyword := by decide
  simp [scanComplexity, pyCount_singleton,
    pyCount_eq_occ h1 (by decide), pyCount_eq_occ h2 (by decide), pyCount_eq_occ h3 (by decide)]

/-- The comparator behind
`sorted(language_sizes.items(), key=lambda t: t[1], reverse=True)`
in `build_language_pie` (report_builder.py line 80): descending by the
byte-size component. Python `sorted` is a stable mergesort, so
`List.mergeSort` with this comparator is an exact model. -/
def byBytesDesc (a b : String × Nat) : Bool := decide (b.2 ≤ a.2)

/-- Sorting languages by byte size, largest first (stable). -/
def sortBySndDesc (ls : List (String × Nat)) : List (String × Nat) :=
  ls.mergeSort byBytesDesc

/-- Labels of the pie as assembled by `build_language_pie` lines 81-87
from the sorted item list: the first eight names, plus `"Other"` when
items remain beyond the eighth. -/
def pieLabels (sorted : List (String × Nat)) : List String :=
  (sorted.take 8).map Prod.fst ++ (if sorted.length ≤ 8 then [] else ["Other"])

/-- Sizes of the pie as assembled by `build_language_pie` lines 81-87:
the first eight byte totals, plus the sum of all remaining byte totals
when items remain beyond the eighth. -/
def pieSizes (sorted : List (String × Nat)) : List Nat :=
  (sorted.take 8).map Prod.snd ++
    (if sorted.length ≤ 8 then [] else [((sorted.drop 8).map Prod.snd).sum])

/-- `report_builder.build_language_pie` (lines 71-95), up to the chart
rasterisation: `none` models the early `return None` on an empty
histogram (no chart produced, no error); otherwise the label and size
lists passed to the pie renderer are returned. -/
def buildLanguagePie (ls : List (String × Nat)) : Option (List String × List Nat) :=
  if ls = [] then none
  else
    let items := sortBySndDesc ls
    let top := items.take 8
    let other := items.drop 8
    let labels := top.map Prod.fst
    let sizes := top.map Prod.snd
    if other = [] then some (labels, sizes)
    else some (labels ++ ["Other"], sizes ++ [(other.map Prod.snd).sum])

/-- C5: an empty language histogram produces no chart; a non-empty one
produces categories drawn from a descending-by-bytes reordering of the
input (every kept entry at least as large as every bucketed one), the
top eight kept, and — exactly when more than eight languages exist — an
`"Other"` category whose size is the sum of the remaining byte totals. -/
theorem build_language_pie_spec :
    buildLanguagePie [] = none ∧
      ∀ ls : List (String × Nat), ls ≠ [] →
        (sortBySndDesc ls).Perm ls ∧
        List.Pairwise (fun a b : String × Nat => b.2 ≤ a.2) (sortBySndDesc ls) ∧
        (∀ a ∈ (sortBySndDesc ls).take 8, ∀ b ∈ (sortBySndDesc ls).drop 8, b.2 ≤ a.2) ∧
        buildLanguagePie ls = some (pieLabels (sortBySndDesc ls), pieSizes (sortBySndDesc ls)) := by
  refine ⟨rfl, fun ls hne => ?_⟩
  have hperm : (sortBySndDesc ls).Perm ls := List.mergeSort_perm ls byBytesDesc
  have hsorted : List.Pairwise (fun a b : String × Nat => byBytesDesc a b = true)
      (sortBySndDesc ls) := by
    apply List.sorted_mergeSort
    · intro a b c hab hbc
      simp only [byBytesDesc, decide_eq_true_eq] at *
      omega
    · intro a b
      simp only [byBytesDesc, Bool.or_eq_true, decide_eq_true_eq]
      omega
  have hpw : List.Pairwise (fun a b : String × Nat => b.2 ≤ a.2) (sortBySndDesc ls) :=
    hsorted.imp (fun h => by simpa [byBytesDesc] using h)
  refine ⟨hperm, hpw, ?_, ?_⟩
  · have hsplit := hpw
    rw [← List.take_append_drop 8 (sortBySndDesc ls)] at hsplit
    exact (List.pairwise_append.mp hsplit).2.2
  · simp only [buildLanguagePie, if_neg hne]
    by_cases hlen : (sortBySndDesc ls).length ≤ 8
    · have hdrop : (sortBySndDesc ls).drop 8 = [] := List.drop_eq_nil_iff.mpr hlen
      simp [hdrop, pieLabels, pieSizes, hlen]
    · have hdrop : (sortBySndDesc ls).drop 8 ≠ [] := by
        intro h
        exact hlen (List.drop_eq_nil_iff.mp h)
      simp [hdrop, pieLabels, pieSizes, hlen]

/-- A concrete histogram with ten languages. -/
def egLangs : List (String × Nat) :=
  [("Python", 100), ("C", 900), ("Go", 50), ("Rust", 800), ("Java", 700),
   ("Lua", 20), ("Ruby", 600), ("Perl", 10), ("Swift", 500), ("Zig", 5)]

/-- Witness for the pie-chart theorem at the ten-language histogram:
its hypothesis is discharged and two of the guaranteed conclusions are
read off. -/
theorem build_language_pie_spec_witness :
    (sortBySndDesc egLangs).Perm egLangs ∧
      buildLanguagePie egLangs =
        some (pieLabels (sortBySndDesc egLangs), pieSizes (sortBySndDesc egLangs)) :=
  ⟨(build_language_pie_spec.2 egLangs (by decide)).1,
    (build_language_pie_spec.2 egLangs (by decide)).2.2.2⟩

/-- Author-name extraction of analyzer.py line 121:
`c.author.name if c.author else "Unknown"`. -/
def resolveAuthor : Option String → String
  | some a => a
  | none => "Unknown"

/-- A commit as the analyzer reads it: the author name (absent when the
commit has no author object) and the committed timestamp. -/
structure Commit where
  author : Option String
  committedDate : PyDateTime
deriving DecidableEq, Repr

/-- The `authors` list built at analyzer.py line 121. -/
def authorNames (commits : List Commit) : List String :=
  commits.map (fun c => resolveAuthor c.author)

/-- The distinct values of a list in first-encounter order — the key
order of a Python `Counter` / dict built by iteration. -/
def firstOccKeys : List String → List String
  | [] => []
  | a :: rest => a :: (firstOccKeys rest).filter (fun b => decide (b ≠ a))

/-- `dict(Counter(values))` (analyzer.py line 122): each distinct value
in first-encounter order, paired with its multiplicity. -/
def counterList (l : List String) : List (String × Nat) :=
  (firstOccKeys l).map (fun k => (k, l.count k))

/-- Membership in the first-encounter key list is membership in the
underlying list. -/
theorem mem_firstOccKeys (a : String) (l : List String) :
    a ∈ firstOccKeys l ↔ a ∈ l := by
  induction l with
  | nil => simp [firstOccKeys]
  | cons x rest ih =>
    by_cases hx : a = x
    · simp [firstOccKeys, hx]
    · simp [firstOccKeys, List.mem_filter, hx, ih]

/-- The first-encounter key list has no duplicates. -/
theorem nodup_firstOccKeys (l : List String) : (firstOccKeys l).Nodup := by
  induction l with
  | nil => simp [firstOccKeys]
  | cons x rest ih =>
    refine List.Nodup.cons ?_ (ih.filter _)
    intro hmem
    have := (List.mem_filter.mp hmem).2
    simp at this

/-- Summing the multiplicities of the distinct elements of a list gives
its length. -/
theorem sum_count_toFinset (l : List String) :
    ∑ a ∈ l.toFinset, l.count a = l.length := by
  simp

/-- The counts recorded by `counterList` sum to the length of the
counted list. -/
theorem counterList_sum (l : List String) :
    ((counterList l).map Prod.snd).sum = l.length := by
  have hmap : (counterList l).map Prod.snd = (firstOccKeys l).map (fun k => l.count k) := by
    simp [counterList, List.map_map]
  rw [hmap]
  have hnd : (firstOccKeys l).Nodup := nodup_firstOccKeys l
  have hto : (firstOccKeys l).toFinset = l.toFinset := by
    ext a
    simp [List.mem_toFinset, mem_firstOccKeys]
  calc ((firstOccKeys l).map fun k => l.count k).sum
      = ∑ a ∈ (firstOccKeys l).toFinset, l.count a := (List.sum_toFinset _ hnd).symm
    _ = ∑ a ∈ l.toFinset, l.count a := by rw [hto]
    _ = l.length := sum_count_toFinset l

/-- The keys recorded by `counterList` are exactly the elements of the
counted list. -/
theorem counterList_keys (l : List String) (a : String) :
    a ∈ (counterList l).map Prod.fst ↔ a ∈ l := by
  have hmap : (counterList l).map Prod.fst = firstOccKeys l := by
    rw [counterList, List.map_map]
    rw [show (Prod.fst ∘ fun k => (k, List.count k l)) = id from rfl, List.map_id]
  rw [hmap]
  exact mem_firstOccKeys a l

/-- The three-commit scenario of the specification: authors A, A, B. -/
def egCommits3 : List Commit :=
  [⟨some "A", ⟨2024, 1, 1, 0, 0, 0⟩⟩, ⟨some "A", ⟨2024, 1, 2, 0, 0, 0⟩⟩,
    ⟨some "B", ⟨2024, 1, 3, 0, 0, 0⟩⟩]

/-- C3: for every commit list the Counter-built author histogram has
values summing to the number of commits, and its key set is exactly the
set of resolved author names (commits without an author resolved to
`"Unknown"`); in the concrete 3-commit scenario with authors A, A, B it
is `{"A": 2, "B": 1}` with total 3. -/
theorem author_histogram_spec :
    (∀ commits : List Commit,
        ((counterList (authorNames commits)).map Prod.snd).sum = commits.length ∧
        ∀ a, a ∈ (counterList (authorNames commits)).map Prod.fst ↔ a ∈ authorNames commits) ∧
      counterList (authorNames egCommits3) = [("A", 2), ("B", 1)] ∧
      egCommits3.length = 3 := by
  refine ⟨fun commits => ⟨?_, fun a => counterList_keys _ a⟩, by decide, rfl⟩
  rw [counterList_sum]
  simp [authorNames]

/-- Python `str.lower()`, character-wise. -/
def pyLower (s : String) : String := String.mk (s.data.map Char.toLower)

/-- `os.path.basename`, on the character data: the part after the last
slash. -/
def lastComponent : List Char → List Char → List Char
  | [], acc => acc.reverse
  | c :: rest, acc => if c = '/' then lastComponent rest [] else lastComponent rest (c :: acc)

/-- `os.path.basename(p)` for an absolute POSIX path. -/
def pyBasename (p : String) : String := String.mk (lastComponent p.data [])

/-- A Python value as it can reach the `chart_path` parameter of
`generate_markdown_report`. The analyzer passes five positional
arguments at analyzer.py lines 174-178, binding the commit-dates
datetime list to `chart_path` (and `None` to `language_chart_path`), so
the parameter can hold `None`, a string path, or a list of datetimes. -/
inductive PyValue
  | pyNone
  | pyStr (s : String)
  | pyDatetimeList (ds : List PyDateTime)
deriving DecidableEq, Repr

/-- `repr(datetime.datetime(...))` for a value with zero microseconds
(git commit timestamps are whole seconds, so `fromtimestamp` yields
microsecond 0): year, month, day, hour and minute are always shown,
the second only when non-zero. -/
def datetimeRepr (d : PyDateTime) : String :=
  "datetime.datetime(" ++ toString d.year ++ ", " ++ toString d.month ++ ", " ++
    toString d.day ++ ", " ++ toString d.hour ++ ", " ++ toString d.minute ++
    (if d.second = 0 then "" else ", " ++ toString d.second) ++ ")"

/-- Python `str(x)` as the f-string at report.py line 45 renders the
chart-path argument: `None` prints as the text `None`, a string as
itself, and a list of datetimes as the bracketed comma-separated
element reprs (`str` of a list uses `repr` of its elements). -/
def pyValueStr : PyValue → String
  | .pyNone => "None"
  | .pyStr s => s
  | .pyDatetimeList ds => "[" ++ String.intercalate ", " (ds.map datetimeRepr) ++ "]"

/-- Format of a file written by the analyzer (JSON/Markdown/HTML report
or a rasterised chart). JSON, HTML and chart contents are delegated to
`json.dump`, the HTML template and the plotting library; only Markdown
content is inspected by a checked property, so only it is materialised
in `content`. -/
inductive FileFmt
  | json
  | markdown
  | html
  | chartPng
deriving DecidableEq, Repr

/-- One file write performed during a run. -/
structure FileOut where
  path : String
  fmt : FileFmt
  content : List String
deriving DecidableEq, Repr

/-- The exceptions relevant to `analyze_repository`: `GitCommandError`
(caught by its `except` clause at analyzer.py line 208) and `ValueError`
(raised by the git library when commit enumeration starts from an
unborn HEAD — a repository with zero commits — and caught nowhere in
the program). -/
inductive GitErr
  | gitCommandError (msg : String)
  | valueError (msg : String)
deriving DecidableEq, Repr

/-- The dictionary `analyze_repository` returns on success (analyzer.py
lines 126-134 and 206), flattened. -/
structure ResultData where
  path : String
  totalCommits : Nat
  authors : List (String × Nat)
  commitDates : List PyDateTime
  branches : Option (List String)
  languages : List (String × Nat)
  complexityData : Option (List (String × Option FileMetrics))
deriving DecidableEq, Repr

/-- How a run of `analyze_repository` ends: a normal return (with
`None` modelling the early `return None` paths) or an uncaught
exception propagating to the caller. -/
inductive RunOutcome
  | returned (r : Option ResultData)
  | raised (e : GitErr)
deriving DecidableEq, Repr

/-- Whether the run returned a (non-`None`) analysis result. -/
def RunOutcome.isReturnedSome : RunOutcome → Bool
  | .returned (some _) => true
  | _ => false

/-- Full observable behaviour of one run: console messages in order,
files written in order, and the outcome. -/
structure RunOut where
  messages : List String
  files : List FileOut
  outcome : RunOutcome
deriving DecidableEq, Repr

/-- No HTML report file among the written files. -/
def noHtmlFile (files : List FileOut) : Bool :=
  files.all (fun f => !(f.fmt == FileFmt.html))

/-- Environment of one `analyze_repository` run: the responses of the
filesystem, the git library and the optional-module import probes
(analyzer.py lines 14-33). `iterCommits` is the outcome of
`list(repo.iter_commits())`; `cloneDest`/`cloneErr` model
`clone_repo_from_url`; `scanResults` is what `analyze_files` would
return; `nowStr` stands for the formatted current time. Local paths are
taken as already absolute (`os.path.abspath` modelled as identity). -/
structure PyEnv where
  repoValid : Bool
  iterCommits : Except GitErr (List Commit)
  branches : List String
  languages : List (String × Nat)
  scanResults : List (String × Option FileMetrics)
  analyzeFilesAvailable : Bool
  htmlAvailable : Bool
  mdAvailable : Bool
  cloneDest : String
  cloneErr : Option GitErr
  nowStr : String
deriving Repr

/-- Console message of analyzer.py line 48. -/
def cloningMsg (url dest : String) : String :=
  "[yellow]Cloning " ++ url ++ " → " ++ dest ++ "[/yellow]"

/-- Console message of analyzer.py line 116. -/
def invalidRepoMsg (path : String) : String :=
  "[red]Not a valid git repo: " ++ path ++ "[/red]"

/-- Console message of analyzer.py line 209. -/
def gitErrorMsg (e : String) : String := "[red]Git Error: " ++ e ++ "[/red]"

/-- Console message of analyzer.py line 136. -/
def headerMsg : String := "\n📊 [bold blue]Repo Analysis[/bold blue]"

/-- Console message of analyzer.py line 137. -/
def pathMsg (path : String) : String := "[green]Path:[/green] " ++ path

/-- Console message of analyzer.py line 138. -/
def totalCommitsMsg (n : Nat) : String := "[green]Total commits:[/green] " ++ toString n

/-- Console message of analyzer.py line 139. -/
def uniqueAuthorsMsg (n : Nat) : String := "[green]Unique authors:[/green] " ++ toString n

/-- Console message of analyzer.py line 144. -/
def complexityDoneMsg : String := "[cyan]Complexity scan completed[/cyan]"

/-- Console message of analyzer.py line 147. -/
def languagesMsg (names : List String) : String :=
  "[green]Detected languages:[/green] " ++ String.intercalate ", " names

/-- Console message of analyzer.py line 169. -/
def jsonSavedMsg (out : String) : String := "✅ JSON saved → " ++ out

/-- Console message of analyzer.py line 184. -/
def mdSavedMsg (out : String) : String := "✅ Markdown saved → " ++ out

/-- Console message of analyzer.py line 201. -/
def htmlSavedMsg (out : String) : String := "✅ HTML saved → " ++ out

/-- Console warning of analyzer.py line 203, printed when the HTML
renderer module failed to import. -/
def htmlUnavailableMsg : String :=
  "[yellow]HTML reporting not available — missing report_builder[/yellow]"

/-- Console message of analyzer.py line 205. -/
def analysisCompleteMsg : String := "\n✅ [bold green]Analysis complete![/bold green]"

/-- The fixed output path of `report.generate_markdown_report`
(report.py lines 64-65): `reports/REPORT.md` relative to the current
working directory, independent of the analysed repository. -/
def mdReportPath : String := "reports/REPORT.md"

/-- The commit-frequency image link of report.py line 45:
`f"![Commit Frequency Chart]({chart_path})"`, with the argument
rendered by Python `str`. -/
def commitFrequencyImgLine (chartPath : PyValue) : String :=
  "![Commit Frequency Chart](" ++ pyValueStr chartPath ++ ")"

/-- The Markdown document assembled by `report.generate_markdown_report`
(report.py lines 16-62), line by line. The language section is guarded
by `if language_chart_path:` (Python truthiness: `None` and the empty
string are falsy); the commit-frequency section is unconditional. -/
def mdReportContent (repoPath : String) (totalCommits : Nat)
    (authorCounts : List (String × Nat)) (chartPath : PyValue)
    (languageChartPath : Option String) (now : String) : List String :=
  ["# 🧠 Git Repository Analysis Report",
   "",
   "**Repository Path:** `" ++ repoPath ++ "`  ",
   "**Generated on:** " ++ now,
   "",
   "---",
   "## 📌 Summary",
   "",
   "- **Total commits:** " ++ toString totalCommits,
   "- **Unique contributors:** " ++ toString authorCounts.length,
   "",
   "---",
   "## 👥 Contributors",
   "",
   "| Author | Commits |",
   "|--------|---------|"]
  ++ (sortBySndDesc authorCounts).map (fun p => "| " ++ p.1 ++ " | " ++ toString p.2 ++ " |")
  ++ ["",
      "---",
      "## 🕒 Commit Frequency",
      "",
      commitFrequencyImgLine chartPath]
  ++ (match languageChartPath with
      | some lp =>
        if lp = "" then []
        else ["", "---", "## 🖥️ Language Usage", "", "![Language Usage Chart](" ++ lp ++ ")"]
      | none => [])
  ++ ["",
      "---",
      "✅ *Generated automatically by Git Repository Analyzer*",
      ""]

/-- `report.generate_markdown_report`: returns the report path and the
file write it performs. -/
def generateMarkdownReport (repoPath : String) (totalCommits : Nat)
    (authorCounts : List (String × Nat)) (chartPath : PyValue)
    (languageChartPath : Option String) (now : String) : String × FileOut :=
  (mdReportPath,
   ⟨mdReportPath, FileFmt.markdown,
     mdReportContent repoPath totalCommits authorCounts chartPath languageChartPath now⟩)

/-- The files written by `report_builder.generate_html_report` (lines
165-268): a commit chart when commit dates exist, a language chart when
languages exist, then the HTML document itself. -/
def htmlReportFiles (reportsDir repoName ts outPath : String)
    (commitDates : List PyDateTime) (languages : List (String × Nat)) : List FileOut :=
  (if commitDates = [] then []
   else [⟨reportsDir ++ "/charts/" ++ repoName ++ "_commits_" ++ ts ++ ".png",
     FileFmt.chartPng, []⟩])
  ++ (if languages = [] then []
      else [⟨reportsDir ++ "/charts/" ++ repoName ++ "_languages_" ++ ts ++ ".png",
        FileFmt.chartPng, []⟩])
  ++ [⟨outPath, FileFmt.html, []⟩]

/-- The body of `analyze_repository` from the `Repo(repo_path)` call
onwards (analyzer.py lines 113-206), for a resolved repository path,
with `msgs0` the console output already produced. Control flow follows
the source: an invalid repository prints and returns `None`; a
`GitCommandError` from commit enumeration is caught by the handler at
line 208; any other exception (the zero-commit `ValueError`) escapes
uncaught; otherwise statistics, the optional complexity scan, language
detection and the requested report run in order. -/
def analyzeCore (env : PyEnv) (repoPath : String) (msgs0 : List String)
    (report : Option String) (showBranches complexity : Bool) : RunOut :=
  if env.repoValid = false then
    ⟨msgs0 ++ [invalidRepoMsg repoPath], [], .returned none⟩
  else
    match env.iterCommits with
    | .error (.gitCommandError m) => ⟨msgs0 ++ [gitErrorMsg m], [], .returned none⟩
    | .error (.valueError m) => ⟨msgs0, [], .raised (.valueError m)⟩
    | .ok commits =>
      let authorCounts := counterList (authorNames commits)
      let commitDates := commits.map Commit.committedDate
      let repoName := pyBasename repoPath
      let branchesOpt := if showBranches then some env.branches else none
      let fileComplexity :=
        if complexity && env.analyzeFilesAvailable then some env.scanResults else none
      let msgs1 := msgs0 ++ [headerMsg, pathMsg repoPath,
        totalCommitsMsg commits.length, uniqueAuthorsMsg authorCounts.length]
      let msgs2 := msgs1 ++ (if complexity then [complexityDoneMsg] else [])
      let msgs3 := msgs2 ++ [languagesMsg (env.languages.map Prod.fst)]
      let reportsDir := repoPath ++ "/.analysis_reports"
      let res : ResultData :=
        ⟨repoPath, commits.length, authorCounts, commitDates, branchesOpt,
          env.languages, fileComplexity⟩
      match report with
      | none => ⟨msgs3 ++ [analysisCompleteMsg], [], .returned (some res)⟩
      | some r =>
        let ext := pyLower r
        let jsonPart : List String × List FileOut :=
          if ext = "json" then
            ([jsonSavedMsg (reportsDir ++ "/" ++ repoName ++ "_report.json")],
             [⟨reportsDir ++ "/" ++ repoName ++ "_report.json", FileFmt.json, []⟩])
          else ([], [])
        let mdPart : List String × List FileOut :=
          if ext = "md" ∨ ext = "markdown" then
            if env.mdAvailable then
              let g := generateMarkdownReport repoPath commits.length authorCounts
                (PyValue.pyDatetimeList commitDates) none env.nowStr
              ([mdSavedMsg g.1], [g.2])
            else
              ([mdSavedMsg (reportsDir ++ "/" ++ repoName ++ "_report.md")],
               [⟨reportsDir ++ "/" ++ repoName ++ "_report.md", FileFmt.markdown,
                 ["# Repo Analysis: " ++ repoName,
                  "- Total commits: " ++ toString commits.length]⟩])
          else ([], [])
        let htmlPart : List String × List FileOut :=
          if ext = "html" then
            if env.htmlAvailable then
              ([htmlSavedMsg (reportsDir ++ "/" ++ repoName ++ "_report.html")],
               htmlReportFiles reportsDir repoName env.nowStr
                 (reportsDir ++ "/" ++ repoName ++ "_report.html") commitDates env.languages)
            else ([htmlUnavailableMsg], [])
          else ([], [])
        ⟨msgs3 ++ jsonPart.1 ++ mdPart.1 ++ htmlPart.1 ++ [analysisCompleteMsg],
         jsonPart.2 ++ mdPart.2 ++ htmlPart.2,
         .returned (some res)⟩

/-- `analyze_repository` (analyzer.py lines 89-210): source resolution,
the clone step for URLs (its `GitCommandError` is caught by the handler
at line 208, after the cloning message has been printed), then the main
body. -/
def analyzeRepository (env : PyEnv) (source : RepoSource) (report : Option String)
    (showBranches complexity : Bool) : RunOut :=
  match sourceModeValue source with
  | (RepoMode.url, value) =>
    let m0 := [cloningMsg value env.cloneDest]
    match env.cloneErr with
    | some (.gitCommandError m) => ⟨m0 ++ [gitErrorMsg m], [], .returned none⟩
    | some (.valueError m) => ⟨m0, [], .raised (.valueError m)⟩
    | none => analyzeCore env env.cloneDest m0 report showBranches complexity
  | (RepoMode.local, value) => analyzeCore env value [] report showBranches complexity

/-- C2 amended: for a valid git working copy whose commit enumeration
raises the zero-commit `ValueError` (a repository with no commits), the
run aborts with that error propagating uncaught — no console message at
all is emitted (in particular no "empty repository" condition is
reported) and no report files are written. -/
theorem empty_repo_unhandled_error (env : PyEnv) (path : String) (report : Option String)
    (sb cx : Bool) (m : String)
    (hvalid : env.repoValid = true)
    (hiter : env.iterCommits = Except.error (GitErr.valueError m)) :
    analyzeRepository env (.tagged .local path) report sb cx =
      ⟨[], [], RunOutcome.raised (GitErr.valueError m)⟩ := by
  simp only [analyzeRepository, sourceModeValue]
  simp [analyzeCore, hvalid, hiter]

/-- Environment of a zero-commit repository: the path is a valid git
working copy, and commit enumeration raises the unborn-HEAD git library
HEAD `ValueError`, which no handler in `analyze_repository` catches. -/
def emptyRepoEnv : PyEnv :=
  ⟨true, .error (.valueError "Reference at refs/heads/master does not exist"),
    [], [], [], true, true, true, "", none, "20260101000000"⟩

/-- C2 counterexample: running the analysis of a zero-commit repository
with a JSON report requested produces an empty console transcript — so
no "empty repository" condition is reported, contrary to the claim —
while the run aborts through an uncaught error and writes no files. -/
theorem empty_repo_counterexample :
    analyzeRepository emptyRepoEnv (.tagged .local "/repos/empty") (some "json") false false =
      ⟨[], [], RunOutcome.raised
        (GitErr.valueError "Reference at refs/heads/master does not exist")⟩ := by
  rfl

/-- Witness for the amended zero-commit theorem at the concrete
environment. -/
theorem empty_repo_unhandled_error_witness :
    analyzeRepository emptyRepoEnv (.tagged .local "/repos/empty2") none false false =
      ⟨[], [], RunOutcome.raised
        (GitErr.valueError "Reference at refs/heads/master does not exist")⟩ :=
  empty_repo_unhandled_error emptyRepoEnv "/repos/empty2" none false false
    "Reference at refs/heads/master does not exist" rfl rfl

/-- C6: when an HTML report is requested but the HTML renderer module
is unavailable, the run prints the degradation warning, still prints
the completion message, returns the analysis result, and writes no
HTML file. -/
theorem html_unavailable_degrades (env : PyEnv) (path r : String) (sb cx : Bool)
    (commits : List Commit)
    (hvalid : env.repoValid = true)
    (hiter : env.iterCommits = Except.ok commits)
    (hhtml : env.htmlAvailable = false)
    (hext : pyLower r = "html") :
    htmlUnavailableMsg ∈
        (analyzeRepository env (.tagged .local path) (some r) sb cx).messages ∧
      analysisCompleteMsg ∈
        (analyzeRepository env (.tagged .local path) (some r) sb cx).messages ∧
      (analyzeRepository env (.tagged .local path) (some r) sb cx).outcome.isReturnedSome =
        true ∧
      noHtmlFile (analyzeRepository env (.tagged .local path) (some r) sb cx).files = true := by
  simp only [analyzeRepository, sourceModeValue]
  simp [analyzeCore, hvalid, hiter, hhtml, hext, RunOutcome.isReturnedSome, noHtmlFile]

/-- Environment of a degraded build: commits enumerate fine but the
HTML renderer module failed to import. -/
def degradedEnv : PyEnv :=
  ⟨true, .ok egCommits3, [], [("Python", 10)], [], true, false, true, "", none,
    "20260101000000"⟩

/-- Witness for the degraded-HTML theorem at the concrete environment. -/
theorem html_unavailable_degrades_witness :
    htmlUnavailableMsg ∈
        (analyzeRepository degradedEnv (.tagged .local "/r") (some "html") false false).messages ∧
      analysisCompleteMsg ∈
        (analyzeRepository degradedEnv (.tagged .local "/r") (some "html") false false).messages ∧
      (analyzeRepository degradedEnv
          (.tagged .local "/r") (some "html") false false).outcome.isReturnedSome = true ∧
      noHtmlFile
        (analyzeRepository degradedEnv (.tagged .local "/r") (some "html") false false).files =
        true :=
  html_unavailable_degrades degradedEnv "/r" "html" false false egCommits3 rfl rfl rfl rfl

/-- The commit-frequency image section of the Markdown report is always
present, whatever value was bound to the chart-path parameter. -/
theorem img_line_mem_mdReportContent (p : String) (t : Nat) (a : List (String × Nat))
    (cp : PyValue) (lp : Option String) (now : String) :
    commitFrequencyImgLine cp ∈ mdReportContent p t a cp lp now := by
  unfold mdReportContent
  simp [List.mem_append]

/-- Stable sorting a one-element list is the identity. -/
theorem sortBySndDesc_singleton (x : String × Nat) : sortBySndDesc [x] = [x] :=
  List.perm_singleton.mp (List.mergeSort_perm [x] byBytesDesc)

/-- Two commits by a single author; the second has a non-zero seconds
field, exercising the seconds branch of the datetime repr. -/
def egCommitsSolo : List Commit :=
  [⟨some "A", ⟨2024, 1, 1, 0, 0, 0⟩⟩, ⟨some "A", ⟨2024, 1, 2, 0, 0, 5⟩⟩]

/-- Environment of a healthy run with the Markdown renderer available. -/
def mdEnv : PyEnv :=
  ⟨true, .ok egCommitsSolo, [], [("Python", 10)], [], true, true, true, "", none,
    "2026-01-01 00:00:00"⟩

/-- C10 counterexample: in a concrete Markdown-report run the single
file written is at `reports/REPORT.md` and its content never contains
the claimed line `![Commit Frequency Chart](None)`; the
commit-frequency image link instead targets the Python str of the
commit-dates list, because analyzer.py lines 174-178 pass five
positional arguments, binding the datetime list to `chart_path` and
`None` to `language_chart_path`. -/
theorem markdown_report_counterexample :
    (analyzeRepository mdEnv (.tagged .local "/repos/sample") (some "md") false false).files.map
        (fun f => (f.path,
          f.content.contains "![Commit Frequency Chart](None)",
          f.content.contains
            "![Commit Frequency Chart]([datetime.datetime(2024, 1, 1, 0, 0), datetime.datetime(2024, 1, 2, 0, 0, 5)])"))
      = [("reports/REPORT.md", false, true)] := by
  have hsolo : counterList (authorNames egCommitsSolo) = [("A", 2)] := by decide
  have hl : pyLower "md" = "md" := rfl
  have hfiles : (analyzeRepository mdEnv
      (.tagged .local "/repos/sample") (some "md") false false).files =
      [⟨mdReportPath, FileFmt.markdown,
        mdReportContent "/repos/sample" egCommitsSolo.length
          (counterList (authorNames egCommitsSolo))
          (PyValue.pyDatetimeList (egCommitsSolo.map Commit.committedDate)) none
          mdEnv.nowStr⟩] := by
    simp only [analyzeRepository, sourceModeValue]
    simp [analyzeCore, mdEnv, hl, generateMarkdownReport]
  rw [hfiles, hsolo]
  simp only [List.map_cons, List.map_nil]
  unfold mdReportContent
  rw [sortBySndDesc_singleton]
  decide

/-- C10 amended: whenever the Markdown renderer module is available and
a Markdown report is requested, the analyzer passes the commit-dates
list positionally into the chart-path parameter (and `None` into the
language-chart parameter), so the emitted Markdown always contains a
commit-frequency image link whose target is the Python str of that
datetime list (the image section is emitted unconditionally), and the
report is always written to the fixed path `reports/REPORT.md` relative
to the current working directory rather than under the reports
directory of the repository. -/
theorem markdown_report_real_chart_arg (env : PyEnv) (path r : String) (sb cx : Bool)
    (commits : List Commit)
    (hvalid : env.repoValid = true)
    (hiter : env.iterCommits = Except.ok commits)
    (hmd : env.mdAvailable = true)
    (hext : pyLower r = "md" ∨ pyLower r = "markdown") :
    (analyzeRepository env (.tagged .local path) (some r) sb cx).files =
        [⟨mdReportPath, FileFmt.markdown,
          mdReportContent path commits.length (counterList (authorNames commits))
            (PyValue.pyDatetimeList (commits.map Commit.committedDate)) none env.nowStr⟩] ∧
      mdReportPath = "reports/REPORT.md" ∧
      (∀ f ∈ (analyzeRepository env (.tagged .local path) (some r) sb cx).files,
        commitFrequencyImgLine (PyValue.pyDatetimeList (commits.map Commit.committedDate)) ∈
          f.content) := by
  have hfiles : (analyzeRepository env (.tagged .local path) (some r) sb cx).files =
      [⟨mdReportPath, FileFmt.markdown,
        mdReportContent path commits.length (counterList (authorNames commits))
          (PyValue.pyDatetimeList (commits.map Commit.committedDate)) none env.nowStr⟩] := by
    cases hext with
    | inl h =>
      simp only [analyzeRepository, sourceModeValue]
      simp [analyzeCore, hvalid, hiter, hmd, h, generateMarkdownReport]
    | inr h =>
      simp only [analyzeRepository, sourceModeValue]
      simp [analyzeCore, hvalid, hiter, hmd, h, generateMarkdownReport]
  refine ⟨hfiles, rfl, ?_⟩
  intro f hf
  rw [hfiles] at hf
  simp only [List.mem_singleton] at hf
  subst hf
  exact img_line_mem_mdReportContent path commits.length (counterList (authorNames commits))
    (PyValue.pyDatetimeList (commits.map Commit.committedDate)) none env.nowStr

/-- Witness for the amended Markdown-report theorem at the concrete
environment. -/
theorem markdown_report_real_chart_arg_witness :
    (analyzeRepository mdEnv (.tagged .local "/repos/sample") (some "md") false false).files =
        [⟨mdReportPath, FileFmt.markdown,
          mdReportContent "/repos/sample" egCommitsSolo.length
            (counterList (authorNames egCommitsSolo))
            (PyValue.pyDatetimeList (egCommitsSolo.map Commit.committedDate)) none
            mdEnv.nowStr⟩] ∧
      mdReportPath = "reports/REPORT.md" :=
  ⟨(markdown_report_real_chart_arg mdEnv "/repos/sample" "md" false false egCommitsSolo rfl rfl
      rfl (Or.inl rfl)).1,
    (markdown_report_real_chart_arg mdEnv "/repos/sample" "md" false false egCommitsSolo rfl rfl
      rfl (Or.inl rfl)).2.1⟩
